import Mathlib

/-!
Shallow embedding of the velib-mcp core (Rust) used to settle the spec claims.

Sources embedded:
- `src/error.rs`            — the crate error enum and its classifiers
- `src/data/retry.rs`       — `RetryConfig`, `RetryStrategy::calculate_delay`,
                              `RetryPolicy::execute`, `RetryPolicy::is_retryable_error`
- `src/data/cache.rs`       — `CacheEntry`, `InMemoryCache::get` / `insert`
- `src/data/client.rs`      — pagination loop of `fetch_reference_stations` /
                              `fetch_realtime_status`, `get_all_stations`,
                              `get_reference_stations_with_fallback`
- `src/types.rs`            — `BikeAvailability`, `RealTimeStatus`, `StationReference`,
                              `VelibStation` with `is_operational`, `has_available_bikes`,
                              `has_available_docks`, `validate`
- `src/mcp/handlers.rs`     — the filter/sort/truncate core of `find_nearby_stations`
                              and the confidence score of `plan_bike_journey`

Modelling conventions: `u64`/`u32`/`u16` machine integers are `Nat` with an explicit
`% 2 ^ 64` where Rust release-mode wrapping can occur (`2_u64.pow`, `u64` multiply);
`f64` arithmetic of the confidence score is modelled over `ℚ` (inputs are integer metre
distances, so every operation is exact); wall-clock instants (`Utc::now()`) are an
explicit `Nat` parameter `now`; the random jitter draw of `fastrand` is an explicit
oracle argument; network fetches are explicit `Except` arguments.  The timestamp /
freshness fields of `RealTimeStatus` (`last_update`, `data_freshness`) are omitted:
they are derived from the real-time clock and no claim mentions them.
-/

namespace Velib

/-- The crate error enum (`src/error.rs`).  Only the payloads that the retry
classifier and the fallback logic inspect are kept: the HTTP status code option
(`src/data/retry.rs` matches on `reqwest_error.status()`) and the rate-limit
retry-after hint.  Message strings are dropped — no embedded code reads them. -/
inductive Error where
  | http (status : Option Nat)
  | rateLimited (retryAfterSeconds : Option Nat)
  | json
  | invalidCoordinates
  | outsideServiceArea
  | searchRadiusTooLarge
  | resultLimitExceeded
  | stationNotFound
  | mcpProtocol
  | validation
  | cache
  | retryExhausted
  | timeout
  | rateLimit
  | internal
  deriving DecidableEq

/-- `RetryConfig` (`src/data/retry.rs`). -/
structure RetryConfig where
  maxAttempts : Nat
  baseDelaySeconds : Nat
  maxDelaySeconds : Nat
  useJitter : Bool
  deriving DecidableEq

/-- `RetryConfig::default()`: 3 attempts, 1s base, 60s cap, jitter on. -/
def RetryConfig.default : RetryConfig :=
  { maxAttempts := 3, baseDelaySeconds := 1, maxDelaySeconds := 60, useJitter := true }

/-- `RetryStrategy` (`src/data/retry.rs`). -/
inductive RetryStrategy where
  | exponentialBackoff (baseDelay maxDelay : Nat) (useJitter : Bool)
  | fixedDelay (delay : Nat)
  deriving DecidableEq

/-- Modulus of Rust `u64` arithmetic. -/
def U64MOD : Nat := 2 ^ 64

/-- `RetryStrategy::calculate_delay` (`src/data/retry.rs`).

`base_delay * 2_u64.pow(attempt)` is `u64` arithmetic: in release builds both the
power and the product wrap modulo `2^64` (in debug builds they panic instead of
wrapping; either way the mathematical value is lost once it exceeds `u64`).
The random jitter draw (`(delay as f64 * 0.25 * fastrand::f64()).round() as u64`)
is supplied as the oracle argument `jitterDraw`; it is only added when
`use_jitter` is set.  The result is the delay in whole seconds. -/
def RetryStrategy.calculateDelay (s : RetryStrategy) (jitterDraw : Nat) (attempt : Nat) :
    Nat :=
  match s with
  | .exponentialBackoff baseDelay maxDelay useJitter =>
    let delay := (baseDelay * (2 ^ attempt % U64MOD)) % U64MOD
    let delay := min delay maxDelay
    if useJitter then delay + jitterDraw else delay
  | .fixedDelay delay => delay

/-- `RetryPolicy::is_retryable_error` (`src/data/retry.rs`): HTTP errors are
retried on 429/500/502/503/504 or when no status code is available (network
error); `RateLimited` is retried; every other variant is terminal. -/
def RetryPolicy.isRetryableError : Error → Bool
  | .http (some status) =>
    status == 429 || status == 500 || status == 502 || status == 503 || status == 504
  | .http none => true
  | .rateLimited _ => true
  | _ => false

/-- `Error::is_retryable` (`src/error.rs`) — the classifier of the *other*,
unused retry loop (`src/retry.rs`); kept for comparison with the one the data
client's retry loop actually uses. -/
def Error.isRetryable : Error → Bool
  | .http _ => true
  | .timeout => true
  | .cache => true
  | .internal => true
  | .rateLimited _ => true
  | _ => false

/-- Observable outcome of one `RetryPolicy::execute` call: the returned result,
how many times the operation closure was invoked, and the successive delays
(in seconds) slept between attempts. -/
structure ExecTrace (T : Type) where
  result : Except Error T
  invocations : Nat
  delays : List Nat

/-- The `for attempt in 0..=max_attempts` loop body of `RetryPolicy::execute`
(`src/data/retry.rs`).  `op i` is the outcome of the `i`-th invocation of the
operation closure (0-based), `jitter i` the jitter drawn for attempt `i`,
`remaining = max_attempts - attempt` the loop iterations left after this one.
On success return at once; on failure break when this was the last attempt or
the error is not retryable, otherwise sleep `calculate_delay(attempt)` and
continue with `attempt + 1`. -/
def executeLoop {T : Type} (strategy : RetryStrategy) (jitter : Nat → Nat)
    (op : Nat → Except Error T) : Nat → Nat → ExecTrace T
  | attempt, remaining =>
    match op attempt with
    | .ok r => { result := .ok r, invocations := 1, delays := [] }
    | .error e =>
      match remaining with
      | 0 => { result := .error e, invocations := 1, delays := [] }
      | r + 1 =>
        if RetryPolicy.isRetryableError e then
          let d := strategy.calculateDelay (jitter attempt) attempt
          let rest := executeLoop strategy jitter op (attempt + 1) r
          { result := rest.result, invocations := rest.invocations + 1,
            delays := d :: rest.delays }
        else
          { result := .error e, invocations := 1, delays := [] }

/-- `RetryPolicy::execute` (`src/data/retry.rs`): runs the attempt loop from
attempt 0 with `max_attempts` retries left, under the exponential-backoff
strategy built by `RetryPolicy::with_config`. -/
def RetryPolicy.execute {T : Type} (config : RetryConfig) (jitter : Nat → Nat)
    (op : Nat → Except Error T) : ExecTrace T :=
  executeLoop
    (.exponentialBackoff config.baseDelaySeconds config.maxDelaySeconds config.useJitter)
    jitter op 0 config.maxAttempts

/-- `CacheEntry` (`src/data/cache.rs`): a value plus its absolute expiry
instant (`expires_at = Utc::now() + ttl`); instants are `Nat`. -/
structure CacheEntry (V : Type) where
  data : V
  expiresAt : Nat
  deriving DecidableEq

/-- `CacheEntry::is_expired` (`src/data/cache.rs`): `Utc::now() > expires_at`. -/
def CacheEntry.isExpired {V : Type} (e : CacheEntry V) (now : Nat) : Bool :=
  e.expiresAt < now

/-- `InMemoryCache::get` (`src/data/cache.rs`) restricted to the single slot the
data client ever uses (the client stores each feed under one constant key, so
the cache contents relevant to a feed are one optional entry): the entry's data
is returned only when the entry is present and not expired. -/
def cacheGet {V : Type} (slot : Option (CacheEntry V)) (now : Nat) : Option V :=
  match slot with
  | some entry => if entry.isExpired now then none else some entry.data
  | none => none

/-- `InMemoryCache::insert` (`src/data/cache.rs`) on the same single slot:
overwrites the entry with expiry `now + ttl` (the cache's default TTL). -/
def cacheInsert {V : Type} (value : V) (now ttl : Nat) : Option (CacheEntry V) :=
  some { data := value, expiresAt := now + ttl }

/-- Page size of the pagination loops in `src/data/client.rs` (`let limit = 100`). -/
def pageLimit : Nat := 100

/-- The `loop { ... }` of `VelibDataClient::fetch_reference_stations` /
`fetch_realtime_status` (`src/data/client.rs`).  `pages o` is the record list
the upstream returns for offset `o`; `parse` is the defensive per-record parser
(`parse_reference_station` / `parse_realtime_status`), whose failures drop the
record.  The loop breaks when a page is empty, or — after appending the page's
parsed records — when the page held fewer than `limit` records; otherwise it
advances `offset` by `limit` and repeats.  The loop has no other exit, so the
embedding uses explicit fuel: `none` means the loop has not terminated within
`fuel` iterations. -/
def fetchLoop {R T : Type} (pages : Nat → List R) (parse : R → Option T) :
    Nat → Nat → List T → Option (List T)
  | 0, _, _ => none
  | fuel + 1, offset, acc =>
    let records := pages offset
    if records.isEmpty then some acc
    else
      let acc := acc ++ records.filterMap parse
      if records.length < pageLimit then some acc
      else fetchLoop pages parse fuel (offset + pageLimit) acc

/-- The fetch phase of `fetch_reference_stations`: the pagination loop started
at offset 0 with an empty accumulator. -/
def fetchAllPages {R T : Type} (pages : Nat → List R) (parse : R → Option T)
    (fuel : Nat) : Option (List T) :=
  fetchLoop pages parse fuel 0 []

/-- `VelibDataClient::fetch_reference_stations` (`src/data/client.rs`) around an
abstracted network+parse phase `fresh` (whose paginated internals are
`fetchLoop`): return the cached value if `InMemoryCache::get` yields one;
otherwise run the fresh fetch, and on success insert the result into the cache
before returning it.  Returns the result together with the updated cache slot. -/
def fetchReferenceStations {V : Type} (cache : Option (CacheEntry V)) (now ttl : Nat)
    (fresh : Except Error V) : Except Error V × Option (CacheEntry V) :=
  match cacheGet cache now with
  | some v => (.ok v, cache)
  | none =>
    match fresh with
    | .ok v => (.ok v, cacheInsert v now ttl)
    | .error e => (.error e, cache)

/-- `VelibDataClient::get_reference_stations_with_fallback`
(`src/data/client.rs`): try `fetch_reference_stations`; on failure read the
cache again through `InMemoryCache::get` and return its value if any, else fail
with the `Error::cache_error("No cached reference data available", "fallback")`
error. -/
def getReferenceStationsWithFallback {V : Type} (cache : Option (CacheEntry V))
    (now ttl : Nat) (fresh : Except Error V) : Except Error V × Option (CacheEntry V) :=
  match fetchReferenceStations cache now ttl fresh with
  | (.ok v, cache') => (.ok v, cache')
  | (.error _, cache') =>
    match cacheGet cache' now with
    | some v => (.ok v, cache')
    | none => (.error .cache, cache')

/-- `Coordinates` (`src/types.rs`); the `f64` degrees are modelled over `ℚ`
(every concrete coordinate in this development is a finite decimal, which `ℚ`
represents exactly; the claims never exercise `f64` rounding). -/
structure Coordinates where
  latitude : ℚ
  longitude : ℚ
  deriving DecidableEq

/-- `Coordinates::is_valid_paris_metro` (`src/types.rs`): the rectangular
Paris-metro sanity bound. -/
def Coordinates.isValidParisMetro (c : Coordinates) : Bool :=
  decide (487 / 10 ≤ c.latitude) && decide (c.latitude ≤ 49)
    && decide (2 ≤ c.longitude) && decide (c.longitude ≤ 26 / 10)

/-- `StationStatus` (`src/types.rs`). -/
inductive StationStatus where
  | open_
  | closed
  | maintenance
  deriving DecidableEq

/-- `ServiceCapabilities` (`src/types.rs`). -/
structure ServiceCapabilities where
  acceptsCreditCard : Bool
  hasChargingStation : Bool
  isVirtualStation : Bool
  deriving DecidableEq

/-- `BikeAvailability` (`src/types.rs`): `u16` counts of the two bike kinds. -/
structure BikeAvailability where
  mechanical : Nat
  electric : Nat
  deriving DecidableEq

/-- `BikeAvailability::total` (`src/types.rs`): `mechanical.saturating_add(electric)`
in `u16`, i.e. the sum saturated at `65535`. -/
def BikeAvailability.total (b : BikeAvailability) : Nat :=
  min (b.mechanical + b.electric) 65535

/-- `BikeAvailability::has_bikes`. -/
def BikeAvailability.hasBikes (b : BikeAvailability) : Bool :=
  0 < b.total

/-- `BikeAvailability::has_mechanical`. -/
def BikeAvailability.hasMechanical (b : BikeAvailability) : Bool :=
  0 < b.mechanical

/-- `BikeAvailability::has_electric`. -/
def BikeAvailability.hasElectric (b : BikeAvailability) : Bool :=
  0 < b.electric

/-- `RealTimeStatus` (`src/types.rs`).  The `last_update` timestamp and the
`data_freshness` bucket derived from it are omitted: they depend on the
real-time clock and no embedded operation or claim reads them. -/
structure RealTimeStatus where
  bikes : BikeAvailability
  availableDocks : Nat
  status : StationStatus
  deriving DecidableEq

/-- `StationReference` (`src/types.rs`). -/
structure StationReference where
  stationCode : String
  name : String
  coordinates : Coordinates
  capacity : Nat
  capabilities : ServiceCapabilities
  deriving DecidableEq

/-- `StationReference::validate` (`src/types.rs`): non-empty code and name,
capacity in `1..=200`, coordinates inside the Paris-metro rectangle.  The
`Result<(), String>` is embedded as `Except String Unit` with the source's
literal messages. -/
def StationReference.validate (r : StationReference) : Except String Unit :=
  if r.stationCode.isEmpty then .error "Station code cannot be empty"
  else if r.name.isEmpty then .error "Station name cannot be empty"
  else if r.capacity = 0 then .error "Station capacity must be greater than 0"
  else if 200 < r.capacity then .error "Station capacity seems unreasonably high"
  else if !r.coordinates.isValidParisMetro then
    .error "Coordinates are outside valid Paris metro area"
  else .ok ()

/-- `VelibStation` (`src/types.rs`): merged view of a reference record and an
optional real-time status. -/
structure VelibStation where
  reference : StationReference
  realTime : Option RealTimeStatus
  deriving DecidableEq

/-- `VelibStation::new`. -/
def VelibStation.new (reference : StationReference) : VelibStation :=
  { reference := reference, realTime := none }

/-- `VelibStation::with_real_time`. -/
def VelibStation.withRealTime (s : VelibStation) (rt : RealTimeStatus) : VelibStation :=
  { s with realTime := some rt }

/-- `VelibStation::is_operational` (`src/types.rs`): with real-time data the
station must be `Open`; without real-time data it is assumed operational. -/
def VelibStation.isOperational (s : VelibStation) : Bool :=
  match s.realTime with
  | some rt => rt.status == .open_
  | none => true

/-- `BikeTypeFilter` (`src/types.rs`). -/
inductive BikeTypeFilter where
  | mechanicalOnly
  | electricOnly
  | anyType
  deriving DecidableEq

/-- `VelibStation::has_available_bikes` (`src/types.rs`): without real-time
data the answer is `false` for every filter. -/
def VelibStation.hasAvailableBikes (s : VelibStation) (bikeType : BikeTypeFilter) : Bool :=
  match s.realTime with
  | some rt =>
    match bikeType with
    | .mechanicalOnly => rt.bikes.hasMechanical
    | .electricOnly => rt.bikes.hasElectric
    | .anyType => rt.bikes.hasBikes
  | none => false

/-- `VelibStation::has_available_docks` (`src/types.rs`). -/
def VelibStation.hasAvailableDocks (s : VelibStation) (minDocks : Nat) : Bool :=
  match s.realTime with
  | some rt => minDocks ≤ rt.availableDocks
  | none => false

/-- `VelibStation::validate` (`src/types.rs`): the reference checks, then —
when real-time data is present — the capacity invariant
`total_bikes + total_docks ≤ capacity` (computed in `u32`; the operands are at
most `65535`, so no wrapping can occur).  The violation message is the
source's `format!` string with the numbers interpolated. -/
def VelibStation.validate (s : VelibStation) : Except String Unit :=
  match s.reference.validate with
  | .error msg => .error msg
  | .ok _ =>
    match s.realTime with
    | some rt =>
      let totalBikes := rt.bikes.total
      let totalDocks := rt.availableDocks
      let capacity := s.reference.capacity
      if capacity < totalBikes + totalDocks then
        .error (s!"Total bikes ({totalBikes}) + docks ({totalDocks}) " ++
          s!"exceeds capacity ({capacity})")
      else .ok ()
    | none => .ok ()

/-- Association-list view of the `HashMap<String, RealTimeStatus>` that
`fetch_realtime_status` builds: `HashMap::get` becomes `find?` on the key. -/
def lookupStatus (statuses : List (String × RealTimeStatus)) (code : String) :
    Option RealTimeStatus :=
  (statuses.find? (fun p => p.1 == code)).map (fun p => p.2)

/-- `VelibDataClient::get_all_stations` (`src/data/client.rs`) downstream of
the two fallback fetches: `refs` is the reference list the reference fallback
produced, `realtimeResult` the outcome of `get_realtime_status_with_fallback`.
Without real-time (or when the real-time fetch failed) every reference becomes
a station with `real_time = None`; otherwise each reference is zipped with the
status found under its station code.  No station is validated or dropped. -/
def getAllStations (refs : List StationReference) (includeRealtime : Bool)
    (realtimeResult : Except Error (List (String × RealTimeStatus))) :
    List VelibStation :=
  if !includeRealtime then refs.map VelibStation.new
  else
    match realtimeResult with
    | .error _ => refs.map VelibStation.new
    | .ok statuses =>
      refs.map (fun r =>
        match lookupStatus statuses r.stationCode with
        | some rt => (VelibStation.new r).withRealTime rt
        | none => VelibStation.new r)

/-- `AvailabilityFilter` (`src/mcp/types.rs`).  `find_nearby_stations` reads
only the `bike_type` field of it. -/
structure AvailabilityFilter where
  minBikes : Option Nat
  minDocks : Option Nat
  bikeType : Option BikeTypeFilter
  excludeOutOfService : Bool
  deriving DecidableEq

/-- `StationWithDistance` (`src/mcp/types.rs`): `distance_meters` is the `f64`
Haversine distance cast `as u32`. -/
structure StationWithDistance where
  station : VelibStation
  distanceMeters : Nat
  deriving DecidableEq

/-- The `filter_map` stage of `McpToolHandler::find_nearby_stations`
(`src/mcp/handlers.rs`).  `dist s` is the `u32`-cast Haversine distance from
the query point to station `s` (the geodesic computation itself is `f64` and
is abstracted as this per-station oracle).  A station is kept when it lies
within the radius, has the requested bike type (when an availability filter
with a `bike_type` was supplied), and is operational. -/
def findNearbyKept (stations : List VelibStation) (dist : VelibStation → Nat)
    (radiusMeters : Nat) (availabilityFilter : Option AvailabilityFilter) :
    List StationWithDistance :=
  stations.filterMap (fun station =>
    let distance := dist station
    if distance ≤ radiusMeters then
      let hasRequestedBikes :=
        match availabilityFilter with
        | some filter =>
          match filter.bikeType with
          | some bikeType => station.hasAvailableBikes bikeType
          | none => true
        | none => true
      if hasRequestedBikes && station.isOperational then
        some { station := station, distanceMeters := distance }
      else none
    else none)

/-- Comparison used by `nearby_stations.sort_by_key(|s| s.distance_meters)`. -/
def byDistance (a b : StationWithDistance) : Prop :=
  a.distanceMeters ≤ b.distanceMeters

instance : DecidableRel byDistance := fun a b =>
  Nat.decLe a.distanceMeters b.distanceMeters

/-- The filter → sort → truncate core of `McpToolHandler::find_nearby_stations`
(`src/mcp/handlers.rs`, after the input validation): keep, stable-sort by
`distance_meters` only (Rust's `sort_by_key` is stable; `insertionSort` has
the same stable semantics), truncate to `limit`. -/
def findNearbyStations (stations : List VelibStation) (dist : VelibStation → Nat)
    (radiusMeters limit : Nat) (availabilityFilter : Option AvailabilityFilter) :
    List StationWithDistance :=
  ((findNearbyKept stations dist radiusMeters availabilityFilter).insertionSort
    byDistance).take limit

/-- Pickup-candidate selection of `McpToolHandler::plan_bike_journey`
(`src/mcp/handlers.rs`): stations within the maximum walking distance of the
origin that are operational and have the requested bike type; sorted by
distance, truncated to the top 3. -/
def journeyPickupCandidates (stations : List VelibStation) (dist : VelibStation → Nat)
    (maxWalkDistance : Nat) (bikeType : BikeTypeFilter) : List StationWithDistance :=
  ((stations.filterMap (fun station =>
    let distance := dist station
    if distance ≤ maxWalkDistance && station.isOperational
        && station.hasAvailableBikes bikeType then
      some { station := station, distanceMeters := distance }
    else none)).insertionSort byDistance).take 3

/-- Dropoff-candidate selection of `McpToolHandler::plan_bike_journey`:
stations within the maximum walking distance of the destination that are
operational and have at least one available dock; sorted by distance,
truncated to the top 3. -/
def journeyDropoffCandidates (stations : List VelibStation) (dist : VelibStation → Nat)
    (maxWalkDistance : Nat) : List StationWithDistance :=
  ((stations.filterMap (fun station =>
    let distance := dist station
    if distance ≤ maxWalkDistance && station.isOperational
        && station.hasAvailableDocks 1 then
      some { station := station, distanceMeters := distance }
    else none)).insertionSort byDistance).take 3

/-- The confidence-score computation of `McpToolHandler::plan_bike_journey`
(`src/mcp/handlers.rs`):

  `1.0 - f64::midpoint(pickup_walk_ratio, dropoff_walk_ratio) * 0.5`,
  then `.clamp(0.1, 1.0)`,

where each ratio is `distance_meters / max_walk_distance`.  The distances and
`max_walk_distance` are integers (`u32`), so over `ℚ` every step is exact.
Rust's `clamp(lo, hi)` is `min (max x lo) hi`. -/
def confidenceScore (pickupDist dropoffDist maxWalkDistance : Nat) : ℚ :=
  let maxWalk : ℚ := maxWalkDistance
  let pickupWalkRatio : ℚ := (pickupDist : ℚ) / maxWalk
  let dropoffWalkRatio : ℚ := (dropoffDist : ℚ) / maxWalk
  let raw : ℚ := 1 - (pickupWalkRatio + dropoffWalkRatio) / 2 * (1 / 2)
  min (max raw (1 / 10)) 1

/-- The confidence score of the recommendation built from the best pickup and
best dropoff candidates: the source computes it from the two
`distance_meters` fields and `max_walk_distance` alone. -/
def recommendationConfidence (pickup dropoff : StationWithDistance)
    (maxWalkDistance : Nat) : ℚ :=
  confidenceScore pickup.distanceMeters dropoff.distanceMeters maxWalkDistance

instance : IsTotal StationWithDistance byDistance :=
  ⟨fun a b => Nat.le_total a.distanceMeters b.distanceMeters⟩

instance : IsTrans StationWithDistance byDistance :=
  ⟨fun _ _ _ hab hbc => Nat.le_trans hab hbc⟩

/-! Concrete inputs used by individual claims. -/

/-- An operation that fails on every invocation with a rate-limit error whose
retry-after hint is 30 seconds. -/
def rateLimitedOp : Nat → Except Error Unit :=
  fun _ => .error (.rateLimited (some 30))

/-- A well-formed reference record (capacity 10) for the merge counterexample. -/
def smallCapacityRef : StationReference :=
  { stationCode := "16107"
    name := "Benjamin Godard - Victor Hugo"
    coordinates := { latitude := 4886 / 100, longitude := 235 / 100 }
    capacity := 10
    capabilities := { acceptsCreditCard := false, hasChargingStation := false,
                      isVirtualStation := false } }

/-- A real-time status violating the capacity invariant of `smallCapacityRef`:
8 + 5 bikes plus 5 docks is 18 > 10. -/
def overfullStatus : RealTimeStatus :=
  { bikes := { mechanical := 8, electric := 5 }, availableDocks := 5, status := .open_ }

/-- The merged station produced from `smallCapacityRef` and `overfullStatus`. -/
def overfullStation : VelibStation :=
  { reference := smallCapacityRef, realTime := some overfullStatus }

/-- Reference record with station code "A" (tie-break counterexample). -/
def refA : StationReference :=
  { stationCode := "A", name := "Station A"
    coordinates := { latitude := 4886 / 100, longitude := 235 / 100 }
    capacity := 20
    capabilities := { acceptsCreditCard := false, hasChargingStation := false,
                      isVirtualStation := false } }

/-- Reference record with station code "B" (tie-break counterexample). -/
def refB : StationReference :=
  { refA with stationCode := "B", name := "Station B" }

/-- Operational pickup station with high availability (12 bikes: 8 mechanical,
4 electric). -/
def highAvailStation : VelibStation :=
  { reference := refA
    realTime := some { bikes := { mechanical := 8, electric := 4 },
                       availableDocks := 4, status := .open_ } }

/-- Operational pickup station identical except for low availability (1 bike). -/
def lowAvailStation : VelibStation :=
  { reference := refA
    realTime := some { bikes := { mechanical := 1, electric := 0 },
                       availableDocks := 4, status := .open_ } }

/-- Operational dropoff station with 12 available docks. -/
def dropoffStation : VelibStation :=
  { reference := refB
    realTime := some { bikes := { mechanical := 2, electric := 2 },
                       availableDocks := 12, status := .open_ } }

/-! ## Theorems -/

/-- Trace of the attempt loop when every invocation fails with a retryable
error: all `remaining + 1` attempts run, the last error is returned, and the
slept delays are exactly the backoff delays of attempts
`attempt, …, attempt + remaining - 1`. -/
theorem executeLoop_allFail {T : Type} (strategy : RetryStrategy) (jitter : Nat → Nat)
    (op : Nat → Except Error T) (err : Nat → Error)
    (hop : ∀ i, op i = .error (err i))
    (hret : ∀ i, RetryPolicy.isRetryableError (err i) = true) :
    ∀ (remaining attempt : Nat),
      executeLoop strategy jitter op attempt remaining =
        { result := .error (err (attempt + remaining)), invocations := remaining + 1,
          delays := (List.range remaining).map (fun k =>
            strategy.calculateDelay (jitter (attempt + k)) (attempt + k)) } := by
  intro remaining
  induction remaining with
  | zero =>
    intro attempt
    simp [executeLoop, hop attempt]
  | succ r ih =>
    intro attempt
    rw [executeLoop]
    simp only [hop attempt, hret attempt, if_true]
    rw [ih (attempt + 1)]
    have harith : attempt + 1 + r = attempt + (r + 1) := by omega
    have hdelays :
        (List.range (r + 1)).map (fun k =>
            strategy.calculateDelay (jitter (attempt + k)) (attempt + k)) =
          strategy.calculateDelay (jitter attempt) attempt ::
            (List.range r).map (fun k =>
              strategy.calculateDelay (jitter (attempt + 1 + k)) (attempt + 1 + k)) := by
      rw [List.range_succ_eq_map, List.map_cons, List.map_map]
      refine congrArg₂ _ (by simp) ?_
      refine List.map_congr_left (fun k _ => ?_)
      have hk : attempt + (k + 1) = attempt + 1 + k := by omega
      simp [Function.comp, hk]
    simp [harith, hdelays]

/-- C10: a station without real-time data counts as operational, yet reports
no available bikes under every bike-type filter. -/
theorem noRealtime_operational_but_no_bikes (s : VelibStation)
    (h : s.realTime = none) :
    s.isOperational = true ∧ ∀ f : BikeTypeFilter, s.hasAvailableBikes f = false := by
  constructor
  · simp [VelibStation.isOperational, h]
  · intro f
    simp [VelibStation.hasAvailableBikes, h]

/-- Witness for C10 at a concrete reference-only station. -/
theorem noRealtime_operational_but_no_bikes_witness :
    (VelibStation.new refA).realTime = none ∧
      (VelibStation.new refA).isOperational = true ∧
      (VelibStation.new refA).hasAvailableBikes .mechanicalOnly = false ∧
      (VelibStation.new refA).hasAvailableBikes .electricOnly = false ∧
      (VelibStation.new refA).hasAvailableBikes .anyType = false :=
  ⟨rfl, (noRealtime_operational_but_no_bikes (VelibStation.new refA) rfl).1,
    (noRealtime_operational_but_no_bikes (VelibStation.new refA) rfl).2 .mechanicalOnly,
    (noRealtime_operational_but_no_bikes (VelibStation.new refA) rfl).2 .electricOnly,
    (noRealtime_operational_but_no_bikes (VelibStation.new refA) rfl).2 .anyType⟩

/-- C2: an operation failing on every invocation with a retryable error is
invoked exactly `max_attempts + 1` times and the last error is returned; an
operation failing with a non-retryable error is invoked exactly once and that
error is returned. -/
theorem retry_attempt_count (config : RetryConfig) (jitter : Nat → Nat) :
    (∀ (T : Type) (op : Nat → Except Error T) (err : Nat → Error),
      (∀ i, op i = .error (err i)) →
      (∀ i, RetryPolicy.isRetryableError (err i) = true) →
      (RetryPolicy.execute config jitter op).invocations = config.maxAttempts + 1 ∧
        (RetryPolicy.execute config jitter op).result =
          .error (err config.maxAttempts)) ∧
    (∀ (T : Type) (op : Nat → Except Error T) (e : Error),
      op 0 = .error e →
      RetryPolicy.isRetryableError e = false →
      (RetryPolicy.execute config jitter op).invocations = 1 ∧
        (RetryPolicy.execute config jitter op).result = .error e) := by
  constructor
  · intro T op err hop hret
    rw [RetryPolicy.execute, executeLoop_allFail _ _ op err hop hret]
    simp
  · intro T op e hop0 hnr
    rw [RetryPolicy.execute]
    cases hma : config.maxAttempts with
    | zero => rw [executeLoop]; simp [hop0]
    | succ m => rw [executeLoop]; simp [hop0, hnr]

/-- Witness for C2: with `max_attempts = 2` an always-rate-limited operation is
invoked 3 times; a validation error stops a `max_attempts = 3` policy after a
single invocation. -/
theorem retry_attempt_count_witness :
    (RetryPolicy.execute ⟨2, 0, 0, false⟩ (fun _ => 0)
        (fun _ => (.error (.rateLimited none) : Except Error Unit))).invocations = 3 ∧
      (RetryPolicy.execute ⟨3, 1, 60, true⟩ (fun _ => 0)
        (fun _ => (.error .validation : Except Error Unit))).invocations = 1 :=
  ⟨((retry_attempt_count ⟨2, 0, 0, false⟩ (fun _ => 0)).1 Unit _
      (fun _ => .rateLimited none) (fun _ => rfl) (fun _ => rfl)).1,
    ((retry_attempt_count ⟨3, 1, 60, true⟩ (fun _ => 0)).2 Unit _
      .validation rfl rfl).1⟩

/-- C3 counterexample: with jitter off, base 1s, cap 60s and an operation that
always fails rate-limited with hint `retry_after_seconds = Some 30`, the delays
actually slept are the backoff delays 1, 2, 4 — the first gap sleeps 1 second,
not the hinted 30 seconds. -/
theorem retry_hint_ignored_counterexample :
    (RetryPolicy.execute ⟨3, 1, 60, false⟩ (fun _ => 0) rateLimitedOp).delays =
      [1, 2, 4] ∧ (1 : Nat) ≠ 30 := by
  constructor
  · rfl
  · decide

/-- C3 amended: `RetryPolicy::execute` never consults the rate-limit
retry-after hint — for an operation that always fails with `RateLimited`
(whatever the per-attempt hints), every slept delay is exactly the strategy's
`calculate_delay` for that attempt. -/
theorem retry_delay_ignores_hint (config : RetryConfig) (jitter : Nat → Nat)
    (hint : Nat → Option Nat) (T : Type) (op : Nat → Except Error T)
    (hop : ∀ i, op i = .error (.rateLimited (hint i))) :
    (RetryPolicy.execute config jitter op).delays =
      (List.range config.maxAttempts).map (fun k =>
        RetryStrategy.calculateDelay
          (.exponentialBackoff config.baseDelaySeconds config.maxDelaySeconds
            config.useJitter) (jitter k) k) := by
  rw [RetryPolicy.execute,
    executeLoop_allFail _ _ op (fun i => .rateLimited (hint i)) hop (fun _ => rfl)]
  simp

/-- Witness for the amended C3 at a concrete configuration and hint. -/
theorem retry_delay_ignores_hint_witness :
    (RetryPolicy.execute ⟨2, 1, 60, false⟩ (fun _ => 0) rateLimitedOp).delays =
      [1, 2] := by
  have h := retry_delay_ignores_hint ⟨2, 1, 60, false⟩ (fun _ => 0) (fun _ => some 30)
    Unit rateLimitedOp (fun _ => rfl)
  simpa using h

/-- C4 counterexample: the classifier used by the data client's retry loop
(`RetryPolicy::is_retryable_error`) marks `Internal` errors — and HTTP errors
with a non-retryable status such as 404 — as NOT retryable, contradicting the
claim that generic transient/internal errors are retried. -/
theorem internal_not_retryable_counterexample :
    RetryPolicy.isRetryableError .internal = false ∧
      RetryPolicy.isRetryableError (.http (some 404)) = false ∧
      Error.isRetryable .internal = true := by
  decide

/-- C4 amended: `RetryPolicy::is_retryable_error` retries exactly rate-limit
errors and HTTP errors that carry no status code or one of
429/500/502/503/504; every other error — validation, not-found, protocol,
and also internal/timeout/cache errors — is terminal. -/
theorem is_retryable_characterization (e : Error) :
    RetryPolicy.isRetryableError e = true ↔
      ((∃ h, e = .rateLimited h) ∨ e = .http none ∨
        ∃ s, e = .http (some s) ∧
          (s = 429 ∨ s = 500 ∨ s = 502 ∨ s = 503 ∨ s = 504)) := by
  cases e with
  | http status =>
    cases status with
    | none => simp [RetryPolicy.isRetryableError]
    | some s =>
      simp [RetryPolicy.isRetryableError]
      tauto
  | rateLimited h => simp [RetryPolicy.isRetryableError]
  | json => simp [RetryPolicy.isRetryableError]
  | invalidCoordinates => simp [RetryPolicy.isRetryableError]
  | outsideServiceArea => simp [RetryPolicy.isRetryableError]
  | searchRadiusTooLarge => simp [RetryPolicy.isRetryableError]
  | resultLimitExceeded => simp [RetryPolicy.isRetryableError]
  | stationNotFound => simp [RetryPolicy.isRetryableError]
  | mcpProtocol => simp [RetryPolicy.isRetryableError]
  | validation => simp [RetryPolicy.isRetryableError]
  | cache => simp [RetryPolicy.isRetryableError]
  | retryExhausted => simp [RetryPolicy.isRetryableError]
  | timeout => simp [RetryPolicy.isRetryableError]
  | rateLimit => simp [RetryPolicy.isRetryableError]
  | internal => simp [RetryPolicy.isRetryableError]

/-- C5 counterexample: `calculate_delay` computes `base * 2_u64.pow(attempt)`
in `u64`; at attempt 64 (with base 1, cap 10, jitter off) the power wraps to 0
in release builds, so the delay is 0 seconds instead of the claimed
`min(base * 2^64, max_delay) = 10`. -/
theorem calculate_delay_overflow_counterexample :
    RetryStrategy.calculateDelay (.exponentialBackoff 1 10 false) 0 64 = 0 ∧
      min (1 * 2 ^ 64) 10 = 10 ∧ (0 : Nat) ≠ 10 := by
  refine ⟨rfl, ?_, by decide⟩
  have h : (10 : Nat) ≤ 1 * 2 ^ 64 := by norm_num
  simp [Nat.min_eq_right h]

/-- C5 amended: with jitter disabled the delay for attempt `n` equals
`min(base * 2^n, max_delay)` whenever `base * 2^n` fits in a `u64` (beyond
that the `u64` power/product wraps); in particular with base 1s and cap 10s
the delays for attempts 0..5 are 1, 2, 4, 8, 10, 10 seconds. -/
theorem calculate_delay_no_jitter :
    (∀ (base maxDelay j n : Nat), base * 2 ^ n < U64MOD →
      RetryStrategy.calculateDelay (.exponentialBackoff base maxDelay false) j n =
        min (base * 2 ^ n) maxDelay) ∧
    [0, 1, 2, 3, 4, 5].map
        (RetryStrategy.calculateDelay (.exponentialBackoff 1 10 false) 0) =
      [1, 2, 4, 8, 10, 10] := by
  constructor
  · intro base maxDelay j n hfit
    rcases Nat.eq_zero_or_pos base with hb | hb
    · subst hb
      simp [RetryStrategy.calculateDelay]
    · have hpow : 2 ^ n < U64MOD := by
        calc 2 ^ n = 1 * 2 ^ n := (Nat.one_mul _).symm
        _ ≤ base * 2 ^ n := Nat.mul_le_mul_right _ hb
        _ < U64MOD := hfit
      simp [RetryStrategy.calculateDelay, Nat.mod_eq_of_lt hpow,
        Nat.mod_eq_of_lt hfit]
  · rfl

/-- Witness for the amended C5: at base 1, attempt 3, cap 10 the hypothesis
`1 * 2^3 < 2^64` holds and the delay is `min(8, 10) = 8`. -/
theorem calculate_delay_no_jitter_witness :
    1 * 2 ^ 3 < U64MOD ∧
      RetryStrategy.calculateDelay (.exponentialBackoff 1 10 false) 0 3 =
        min (1 * 2 ^ 3) 10 :=
  ⟨by norm_num [U64MOD], calculate_delay_no_jitter.1 1 10 0 3 (by norm_num [U64MOD])⟩

/-- If every upstream page is exactly full (`pageLimit` records), the
pagination loop never reaches a break: it exhausts any amount of fuel. -/
theorem fetchLoop_never_stops_of_full {R T : Type} (pages : Nat → List R)
    (parse : R → Option T) (hfull : ∀ o, (pages o).length = pageLimit) :
    ∀ (fuel offset : Nat) (acc : List T),
      fetchLoop pages parse fuel offset acc = none := by
  intro fuel
  induction fuel with
  | zero => intro offset acc; rfl
  | succ f ih =>
    intro offset acc
    rw [fetchLoop]
    have hlen := hfull offset
    have hne : (pages offset).isEmpty = false := by
      cases hpo : pages offset with
      | nil => rw [hpo] at hlen; simp [pageLimit] at hlen
      | cons a l => simp
    have hnlt : ¬ (pages offset).length < pageLimit := by rw [hlen]; omega
    simp [hne, hnlt, ih]

/-- If the page at offset `pageLimit * n` is short (or empty), the pagination
loop terminates once the fuel exceeds `n`. -/
theorem fetchLoop_stops_of_short {R T : Type} (pages : Nat → List R)
    (parse : R → Option T) :
    ∀ (n offset : Nat) (acc : List T) (fuel : Nat),
      (pages (offset + pageLimit * n)).length < pageLimit → n < fuel →
      (fetchLoop pages parse fuel offset acc).isSome = true := by
  intro n
  induction n with
  | zero =>
    intro offset acc fuel hshort hfuel
    obtain ⟨f, rfl⟩ : ∃ f, fuel = f + 1 := ⟨fuel - 1, by omega⟩
    rw [fetchLoop]
    by_cases he : (pages offset).isEmpty
    · simp [he]
    · have hlt : (pages offset).length < pageLimit := by simpa using hshort
      simp [he, hlt]
  | succ n ih =>
    intro offset acc fuel hshort hfuel
    obtain ⟨f, rfl⟩ : ∃ f, fuel = f + 1 := ⟨fuel - 1, by omega⟩
    rw [fetchLoop]
    by_cases he : (pages offset).isEmpty
    · simp [he]
    · by_cases hlt : (pages offset).length < pageLimit
      · simp [he, hlt]
      · have hsh : (pages (offset + pageLimit + pageLimit * n)).length < pageLimit := by
          have harith : offset + pageLimit + pageLimit * n =
              offset + pageLimit * (n + 1) := by ring
          rw [harith]
          exact hshort
        have hrec := ih (offset + pageLimit)
          (acc ++ (pages offset).filterMap parse) f hsh (by omega)
        simp [he, hlt, hrec]

/-- C6 counterexample: an upstream that answers every offset with a full
100-record page keeps the fetch loop running past 1000 pages — an accumulated
offset of 100000, far beyond any plausible station count — because the loop
has no safety cap on the offset. -/
theorem pagination_no_cap_counterexample :
    fetchAllPages (fun _ => List.replicate pageLimit ())
        (fun _ => (none : Option Unit)) 1000 = none ∧
      1000 * pageLimit = 100000 := by
  constructor
  · exact fetchLoop_never_stops_of_full _ _ (fun o => by simp) 1000 0 []
  · rfl

/-- C6 amended: the paginated fetch terminates exactly by the page conditions —
it stops (with the accumulated records) as soon as some page at offset
`100 * n` is empty or shorter than the page size, given fuel beyond `n`; but
there is no hard safety cap on the accumulated offset, so an upstream that
keeps returning full pages forever makes the loop run unboundedly (it
terminates under no amount of fuel). -/
theorem pagination_termination :
    (∀ (R T : Type) (pages : Nat → List R) (parse : R → Option T) (n fuel : Nat),
      (pages (pageLimit * n)).length < pageLimit → n < fuel →
      (fetchAllPages pages parse fuel).isSome = true) ∧
    (∀ (R T : Type) (pages : Nat → List R) (parse : R → Option T) (fuel : Nat),
      (∀ o, (pages o).length = pageLimit) →
      fetchAllPages pages parse fuel = none) := by
  constructor
  · intro R T pages parse n fuel hshort hfuel
    have h := fetchLoop_stops_of_short pages parse n 0 [] fuel (by simpa using hshort)
      hfuel
    simpa [fetchAllPages] using h
  · intro R T pages parse fuel hfull
    exact fetchLoop_never_stops_of_full pages parse hfull fuel 0 []

/-- Witness for the amended C6: an upstream whose very first page is empty
terminates with fuel 1. -/
theorem pagination_termination_witness :
    ((fun _ => ([] : List Unit)) (pageLimit * 0)).length < pageLimit ∧ 0 < 1 ∧
      (fetchAllPages (fun _ => ([] : List Unit)) (fun _ => (none : Option Unit))
        1).isSome = true :=
  ⟨by simp [pageLimit], by decide,
    pagination_termination.1 Unit Unit (fun _ => []) (fun _ => none) 0 1
      (by simp [pageLimit]) (by decide)⟩

/-- C1 failing input (code bug): the cache holds a copy whose TTL expired
(`expires_at = 10 < now = 20`) and the fresh fetch fails; the fallback rereads
the cache through `InMemoryCache::get`, which hides expired entries, so the
call fails with the "No cached reference data available" cache error instead
of serving the stale copy — although a cached copy exists. -/
theorem stale_fallback_failing_input :
    getReferenceStationsWithFallback (V := Nat) (some { data := 0, expiresAt := 10 })
        20 300 (.error .timeout) =
      (.error .cache, some { data := 0, expiresAt := 10 }) ∧
      ({ data := 0, expiresAt := 10 } : CacheEntry Nat).isExpired 20 = true ∧
      (some ({ data := 0, expiresAt := 10 } : CacheEntry Nat)) ≠ none := by
  refine ⟨rfl, rfl, by simp⟩

/-- C7 counterexample: merging a capacity-10 reference with a real-time status
of 13 bikes and 5 docks (13 + 5 = 18 > 10) yields a station that
`get_all_stations` returns as-is — the invariant violator is not dropped,
even though `VelibStation::validate` rejects it. -/
theorem merge_keeps_invalid_station_counterexample :
    getAllStations [smallCapacityRef] true
        (.ok [(smallCapacityRef.stationCode, overfullStatus)]) = [overfullStation] ∧
      overfullStation.validate ≠ .ok () ∧
      overfullStatus.bikes.total + overfullStatus.availableDocks = 18 ∧
      smallCapacityRef.capacity = 10 := by
  have hcoord : smallCapacityRef.coordinates.isValidParisMetro = true := by
    simp only [Coordinates.isValidParisMetro, smallCapacityRef]
    norm_num
  have h1 : smallCapacityRef.stationCode.isEmpty = false := rfl
  have h2 : smallCapacityRef.name.isEmpty = false := rfl
  have hrefv : smallCapacityRef.validate = .ok () := by
    simp only [StationReference.validate]
    rw [hcoord, h1, h2]
    norm_num [smallCapacityRef]
  have hval : overfullStation.validate ≠ .ok () := by
    simp only [VelibStation.validate, overfullStation]
    rw [hrefv]
    simp [overfullStatus, smallCapacityRef, BikeAvailability.total]
  exact ⟨rfl, hval, rfl, rfl⟩

/-- C7 amended: `get_all_stations` returns exactly one merged station per
reference record — it never validates or drops any, so a station whose merged
real-time counts violate `bikes + docks ≤ capacity` is returned rather than
dropped (`VelibStation::validate` would flag it but is never invoked). -/
theorem merge_never_drops_stations (refs : List StationReference)
    (includeRealtime : Bool)
    (realtimeResult : Except Error (List (String × RealTimeStatus))) :
    (getAllStations refs includeRealtime realtimeResult).map VelibStation.reference =
      refs := by
  have hnew : ∀ l : List StationReference,
      (l.map VelibStation.new).map VelibStation.reference = l := by
    intro l
    rw [List.map_map]
    conv_rhs => rw [← List.map_id l]
    exact List.map_congr_left (fun r _ => rfl)
  have hpoint : ∀ (statuses : List (String × RealTimeStatus)) (r : StationReference),
      (match lookupStatus statuses r.stationCode with
        | some rt => (VelibStation.new r).withRealTime rt
        | none => VelibStation.new r).reference = r := by
    intro statuses r
    cases lookupStatus statuses r.stationCode <;> rfl
  cases includeRealtime with
  | false =>
    simp only [getAllStations, Bool.not_false, if_true]
    exact hnew refs
  | true =>
    cases realtimeResult with
    | error e =>
      simp only [getAllStations, Bool.not_true, Bool.false_eq_true, if_false]
      exact hnew refs
    | ok statuses =>
      simp only [getAllStations, Bool.not_true, Bool.false_eq_true, if_false]
      rw [List.map_map]
      conv_rhs => rw [← List.map_id refs]
      refine List.map_congr_left (fun r _ => ?_)
      simp only [Function.comp_apply, id_eq]
      exact hpoint statuses r

/-- C8 counterexample: two operational stations with codes "A" and "B" at the
same distance (50 m) come back in the order the merged list supplied them, in
both orders — the sort is by distance only, with no station-code
tie-breaking. -/
theorem nearby_tiebreak_counterexample :
    (findNearbyStations [VelibStation.new refB, VelibStation.new refA]
        (fun _ => 50) 100 10 none).map
        (fun s => s.station.reference.stationCode) = ["B", "A"] ∧
      (findNearbyStations [VelibStation.new refA, VelibStation.new refB]
        (fun _ => 50) 100 10 none).map
        (fun s => s.station.reference.stationCode) = ["A", "B"] ∧
      (findNearbyStations [VelibStation.new refB, VelibStation.new refA]
        (fun _ => 50) 100 10 none).map (fun s => s.distanceMeters) = [50, 50] ∧
      "A" ≠ "B" := by
  refine ⟨rfl, rfl, rfl, by decide⟩

/-- C8 amended: `find_nearby_stations` returns the kept stations sorted in
ascending distance order and truncated to the limit, but equal-distance ties
keep the order of the merged input list (stable sort by distance only) rather
than being broken by station code. -/
theorem nearby_sorted_truncated (stations : List VelibStation)
    (dist : VelibStation → Nat) (radiusMeters limit : Nat)
    (af : Option AvailabilityFilter) :
    List.Sorted byDistance (findNearbyStations stations dist radiusMeters limit af) ∧
      (findNearbyStations stations dist radiusMeters limit af).length =
        min limit (findNearbyKept stations dist radiusMeters af).length ∧
      ∀ s ∈ findNearbyStations stations dist radiusMeters limit af,
        s ∈ findNearbyKept stations dist radiusMeters af := by
  refine ⟨?_, ?_, ?_⟩
  · exact (List.sorted_insertionSort byDistance
      (findNearbyKept stations dist radiusMeters af)).sublist
      (List.take_sublist _ _)
  · rw [findNearbyStations, List.length_take, List.length_insertionSort]
  · intro s hs
    have h1 : s ∈ (findNearbyKept stations dist radiusMeters af).insertionSort
        byDistance := List.mem_of_mem_take hs
    exact (List.perm_insertionSort byDistance _).mem_iff.mp h1

/-- Witness for the amended C8: on a concrete single-station input the result
element is a member of the kept list. -/
theorem nearby_sorted_truncated_witness :
    ({ station := VelibStation.new refA, distanceMeters := 50 } :
        StationWithDistance) ∈
      findNearbyStations [VelibStation.new refA] (fun _ => 50) 100 10 none ∧
    ({ station := VelibStation.new refA, distanceMeters := 50 } :
        StationWithDistance) ∈
      findNearbyKept [VelibStation.new refA] (fun _ => 50) 100 none := by
  have hs : ({ station := VelibStation.new refA, distanceMeters := 50 } :
      StationWithDistance) ∈
      findNearbyStations [VelibStation.new refA] (fun _ => 50) 100 10 none := by
    show _ ∈ [({ station := VelibStation.new refA, distanceMeters := 50 } :
      StationWithDistance)]
    exact List.mem_singleton_self _
  exact ⟨hs,
    (nearby_sorted_truncated [VelibStation.new refA] (fun _ => 50) 100 10 none).2.2
      _ hs⟩

/-- The clamp in `confidenceScore` is inactive for walking distances within
the maximum: the score equals `1 - (p + d) / (4 * max_walk)`. -/
theorem confidenceScore_eq (p d m : Nat) (hp : p ≤ m) (hd : d ≤ m) (hm : 0 < m) :
    confidenceScore p d m = 1 - ((p : ℚ) + d) / (4 * m) := by
  have hm' : (0 : ℚ) < m := by exact_mod_cast hm
  have hple : (p : ℚ) ≤ m := by exact_mod_cast hp
  have hdle : (d : ℚ) ≤ m := by exact_mod_cast hd
  have hpn : (0 : ℚ) ≤ p := by positivity
  have hdn : (0 : ℚ) ≤ d := by positivity
  simp only [confidenceScore]
  have h1 : 1 - ((p : ℚ) / m + (d : ℚ) / m) / 2 * (1 / 2) =
      1 - ((p : ℚ) + d) / (4 * m) := by
    field_simp
    ring
  rw [h1]
  have hub : 1 - ((p : ℚ) + d) / (4 * m) ≤ 1 := by
    have : (0 : ℚ) ≤ ((p : ℚ) + d) / (4 * m) := by positivity
    linarith
  have hlb : (1 : ℚ) / 2 ≤ 1 - ((p : ℚ) + d) / (4 * m) := by
    have h4m : (0 : ℚ) < 4 * m := by positivity
    have hhalf : ((p : ℚ) + d) / (4 * m) ≤ 1 / 2 := by
      rw [div_le_div_iff₀ h4m (by norm_num : (0 : ℚ) < 2)]
      linarith
    linarith
  rw [max_eq_left (le_trans (by norm_num) hlb), min_eq_left hub]

/-- C9 counterexample: the recommendation confidence is computed from the two
walking distances and `max_walk_distance` alone — a pickup with 12 available
bikes and a pickup with 1 available bike at the same 35 m distance score
exactly equal, contradicting strict growth in availability. -/
theorem confidence_ignores_availability_counterexample :
    recommendationConfidence { station := highAvailStation, distanceMeters := 35 }
        { station := dropoffStation, distanceMeters := 42 } 500 =
      recommendationConfidence { station := lowAvailStation, distanceMeters := 35 }
        { station := dropoffStation, distanceMeters := 42 } 500 ∧
      highAvailStation.realTime ≠ lowAvailStation.realTime ∧
      (highAvailStation.realTime.map (fun rt => rt.bikes.total)) = some 12 ∧
      (lowAvailStation.realTime.map (fun rt => rt.bikes.total)) = some 1 := by
  refine ⟨rfl, by decide, rfl, rfl⟩

/-- C9 amended: the confidence score lies in `[1/10, 1] ⊆ [0, 1]` (for a
positive maximum walking distance), strictly decreases when either walking
distance grows (within the maximum walking distance, which the candidate
filter guarantees), and is entirely independent of bike/dock availability at
the chosen stations; the spec's 35 m-vs-450 m example holds.  (A zero
`max_walk_distance` is degenerate `f64` arithmetic — NaN — and is outside
this exact model.) -/
theorem confidence_bounds_and_monotonicity :
    (∀ p d m : Nat, 0 < m →
      1 / 10 ≤ confidenceScore p d m ∧ confidenceScore p d m ≤ 1) ∧
    (∀ p1 p2 d m : Nat, p1 < p2 → p2 ≤ m → d ≤ m →
      confidenceScore p2 d m < confidenceScore p1 d m) ∧
    (∀ p d1 d2 m : Nat, d1 < d2 → d2 ≤ m → p ≤ m →
      confidenceScore p d2 m < confidenceScore p d1 m) ∧
    (∀ (a b c : StationWithDistance) (m : Nat),
      a.distanceMeters = b.distanceMeters →
      recommendationConfidence a c m = recommendationConfidence b c m ∧
        recommendationConfidence c a m = recommendationConfidence c b m) ∧
    confidenceScore 450 42 500 < confidenceScore 35 42 500 := by
  have hex : confidenceScore 450 42 500 < confidenceScore 35 42 500 := by
    rw [confidenceScore_eq 450 42 500 (by norm_num) (by norm_num) (by norm_num),
      confidenceScore_eq 35 42 500 (by norm_num) (by norm_num) (by norm_num)]
    norm_num
  refine ⟨?_, ?_, ?_, ?_, hex⟩
  · intro p d m _
    constructor
    · exact le_min (le_max_right _ _) (by norm_num)
    · exact min_le_right _ _
  · intro p1 p2 d m h12 h2m hdm
    have hm : 0 < m := by omega
    rw [confidenceScore_eq p1 d m (by omega) hdm hm,
      confidenceScore_eq p2 d m h2m hdm hm]
    have h12' : (p1 : ℚ) < p2 := by exact_mod_cast h12
    have h4m : (0 : ℚ) < 4 * m := by
      have hmq : (0 : ℚ) < m := by exact_mod_cast hm
      positivity
    have key : ((p1 : ℚ) + d) / (4 * m) < ((p2 : ℚ) + d) / (4 * m) := by
      have hmul := mul_lt_mul_of_pos_right
        (show ((p1 : ℚ) + d) < (p2 : ℚ) + d by linarith) (inv_pos.mpr h4m)
      simpa [div_eq_mul_inv] using hmul
    linarith
  · intro p d1 d2 m h12 h2m hpm
    have hm : 0 < m := by omega
    rw [confidenceScore_eq p d1 m hpm (by omega) hm,
      confidenceScore_eq p d2 m hpm h2m hm]
    have h12' : (d1 : ℚ) < d2 := by exact_mod_cast h12
    have h4m : (0 : ℚ) < 4 * m := by
      have hmq : (0 : ℚ) < m := by exact_mod_cast hm
      positivity
    have key : ((p : ℚ) + d1) / (4 * m) < ((p : ℚ) + d2) / (4 * m) := by
      have hmul := mul_lt_mul_of_pos_right
        (show ((p : ℚ) + d1) < (p : ℚ) + d2 by linarith) (inv_pos.mpr h4m)
      simpa [div_eq_mul_inv] using hmul
    linarith
  · intro a b c m h
    constructor
    · simp [recommendationConfidence, h]
    · simp [recommendationConfidence, h]

/-- Witness for the amended C9: 35 < 450 ≤ 500 and 42 ≤ 500, and the score at
pickup distance 450 is strictly below the score at 35. -/
theorem confidence_bounds_and_monotonicity_witness :
    (35 : Nat) < 450 ∧ (450 : Nat) ≤ 500 ∧ (42 : Nat) ≤ 500 ∧
      confidenceScore 450 42 500 < confidenceScore 35 42 500 :=
  ⟨by decide, by decide, by decide,
    confidence_bounds_and_monotonicity.2.1 35 450 42 500 (by decide) (by decide)
      (by decide)⟩

end Velib
